import Mathlib

/-!
Shallow embedding of the cytube-bot client runtime
(src/cytube_bot/bot.py, src/cytube_bot/user.py).

Pure fragments of the Python code are translated into executable Lean
definitions; stateful methods become explicit state-passing functions.
External collaborators (the transport, the HTTP fetch, the channel and
playlist containers, the IP-uncloaking utility) are passed in as
parameters or modelled by their outcomes, matching the spec, which
treats them as out of scope.
-/

/-- Error taxonomy of the bot: SocketConfigError, LoginError,
ChannelPermissionError, Kicked (src/cytube_bot/bot.py imports from .error),
plus the Python AttributeError that an attribute-lookup failure raises. -/
inductive BotErr where
  | socketConfigErr (msg : String)
  | loginErr (msg : String)
  | channelPermissionErr (msg : String)
  | kicked (msg : String)
  | attributeErr (attr : String)
deriving DecidableEq, Repr

/-! ## User model (src/cytube_bot/user.py) -/

/-- `User` attribute record: name, password, rank, profile image and text,
meta flags afk, muted, smuted, the raw ip (stored as attribute `_ip`),
the derived uncloaked ip, and aliases (user.py lines 19-33). -/
structure User where
  name : String
  password : Option String
  rank : Int
  image : String
  text : String
  afk : Bool
  muted : Bool
  smuted : Bool
  rawIp : Option String
  uncloaked_ip : Option String
  aliases : List String
deriving DecidableEq, Repr

/-- A profile payload: a dict whose keys image and text may be absent
(absent is `none`). -/
structure ProfileData where
  image : Option String
  text : Option String
deriving DecidableEq, Repr

/-- A meta payload: a dict whose keys afk, muted, smuted, ip, aliases may
each be absent (absent is `none`).  Python reads each with
`meta.get(key, default)`, which collapses an absent value and an explicit
null, so `ip` carries directly the value handed to the ip setter. -/
structure MetaData where
  afk : Option Bool
  muted : Option Bool
  smuted : Option Bool
  ip : Option String
  aliases : Option (List String)
deriving DecidableEq, Repr

/-- The empty dict substituted by the profile setter when given None. -/
def ProfileData.empty : ProfileData := ⟨none, none⟩

/-- The empty dict substituted by the meta setter when given None. -/
def MetaData.empty : MetaData := ⟨none, none, none, none, none⟩

/-- The ip setter (user.py lines 55-61): stores the raw ip and recomputes
the derived uncloaked ip with the pure external function `uncloak`
(the collaborator `uncloak_ip`), or clears it when the ip is None. -/
def User.setIp (uncloak : String → String) (u : User) (ip : Option String) : User :=
  { u with
    rawIp := ip
    uncloaked_ip :=
      match ip with
      | none => none
      | some s => some (uncloak s) }

/-- The profile setter (user.py lines 70-75): None becomes the empty dict;
image and text are overwritten, with default empty string. -/
def User.setProfile (u : User) (p : Option ProfileData) : User :=
  let q := p.getD ProfileData.empty
  { u with image := q.image.getD "", text := q.text.getD "" }

/-- The meta setter (user.py lines 87-95): None becomes the empty dict;
afk, muted, smuted, aliases are overwritten with their defaults when
absent, and the ip is assigned through the ip setter with
`meta.get(ip, None)`. -/
def User.setMeta (uncloak : String → String) (u : User) (m : Option MetaData) : User :=
  let q := m.getD MetaData.empty
  User.setIp uncloak
    { u with
      afk := q.afk.getD false
      muted := q.muted.getD false
      smuted := q.smuted.getD false
      aliases := q.aliases.getD [] }
    q.ip

/-- `User.update` (user.py lines 97-107): each given (non-None) argument is
assigned to the corresponding attribute; profile and meta go through
their setters. -/
def User.update (uncloak : String → String) (u : User)
    (name : Option String) (rank : Option Int)
    (profile : Option ProfileData) (meta : Option MetaData) : User :=
  let u1 := match name with | none => u | some n => { u with name := n }
  let u2 := match rank with | none => u1 | some r => { u1 with rank := r }
  let u3 := match profile with | none => u2 | some p => User.setProfile u2 (some p)
  match meta with | none => u3 | some m => User.setMeta uncloak u3 (some m)

/-- `User.__init__` (user.py lines 19-33): fixed defaults, then
`update(profile=profile, meta=meta)`. -/
def User.mk0 (uncloak : String → String) (name : String) (password : Option String)
    (rank : Int) (profile : Option ProfileData) (meta : Option MetaData) : User :=
  User.update uncloak
    { name := name, password := password, rank := rank
      image := "", text := "", afk := false, muted := false, smuted := false
      rawIp := none, uncloaked_ip := none, aliases := [] }
    none none profile meta

/-- The ip/uncloaked-ip coherence invariant: the derived field is exactly
the image of the raw ip under the pure uncloaking function (so it is
None iff the raw ip is None). -/
def User.ipCoherent (uncloak : String → String) (u : User) : Prop :=
  u.uncloaked_ip = u.rawIp.map uncloak

instance (uncloak : String → String) (u : User) : Decidable (User.ipCoherent uncloak u) := by
  unfold User.ipCoherent; infer_instance

/-! ## Guest-login throttle pattern (bot.py line 22, used at lines 229-238)

`GUEST_LOGIN_LIMIT = re.compile(r'guest logins .* ([0-9]+) seconds\.', re.I)`
applied with `.match` (anchored at the start, case-insensitive, `.` not
matching a newline, greedy quantifiers).  The engine below is this one
pattern specialised: a case-insensitive literal prefix, a greedy
dot-star, then a space, a captured digit run, and the literal
` seconds.`.  Greedy means the rightmost viable tail position wins;
the digit run is maximal (a shorter run would be followed by a digit,
never by the required space). -/

/-- Case-insensitive character comparison (re.I). -/
def ciEq (a b : Char) : Bool := a.toLower == b.toLower

/-- Strip a case-insensitive literal off the front, returning the rest. -/
def ciStrip : List Char → List Char → Option (List Char)
  | [], s => some s
  | _ :: _, [] => none
  | p :: ps, c :: cs => if ciEq p c then ciStrip ps cs else none

/-- Match ` ([0-9]+) seconds\.` at this position and return the capture. -/
def throttleTail (s : List Char) : Option (List Char) :=
  match s with
  | ' ' :: rest =>
    let ds := rest.takeWhile Char.isDigit
    let rest2 := rest.dropWhile Char.isDigit
    if ds.isEmpty then none
    else match ciStrip (" seconds.".toList) rest2 with
      | some _ => some ds
      | none => none
  | _ => none

/-- Greedy `.*` search: try the longest consumable prefix first (deepest
recursion), falling back towards the current position; a newline stops
the dot-star. -/
def throttleScan : List Char → Option (List Char)
  | [] => throttleTail []
  | c :: rest =>
    if c = '\n' then throttleTail (c :: rest)
    else
      match throttleScan rest with
      | some g => some g
      | none => throttleTail (c :: rest)

/-- `GUEST_LOGIN_LIMIT.match(err)`: the anchored case-insensitive literal
`guest logins ` followed by the greedy scan; returns the captured digit
group when the pattern matches. -/
def guestLoginLimit (err : String) : Option (List Char) :=
  match ciStrip ("guest logins ".toList) err.toList with
  | none => none
  | some rest => throttleScan rest

/-- Python `int` on the captured group: defined on nonempty digit strings
(which is all the group, `[0-9]+`, can produce). -/
def pyInt (ds : List Char) : Option Nat :=
  if ds.isEmpty then none
  else if ds.all Char.isDigit then
    some (ds.foldl (fun n c => 10 * n + (c.toNat - '0'.toNat)) 0)
  else none

/-- One authenticate acknowledgement: `res.get('success', False)` and
`res.get('error', '<no error message>')` (bot.py lines 225-227). -/
structure LoginAck where
  success : Option Bool
  error : Option String
deriving DecidableEq, Repr

/-- Outcome of one iteration of the authenticate loop body. -/
inductive LoginStep where
  | done
  | sleepRetry (delay : Nat)
  | fail (err : String)
deriving DecidableEq, Repr

/-- The authenticate loop body (bot.py lines 225-238): on success break;
otherwise match the error string against the guest-login-throttle
pattern; on a match sleep `max(int(group), 1)` seconds and retry
(an unparseable capture would raise LoginError); on no match raise
LoginError with the error string. -/
def loginStep (res : LoginAck) : LoginStep :=
  if res.success.getD false then .done
  else
    let err := res.error.getD "<no error message>"
    match guestLoginLimit err with
    | some g =>
      match pyInt g with
      | some n => .sleepRetry (max n 1)
      | none => .fail err
    | none => .fail err

/-! ## Socket-config endpoint resolution (bot.py lines 139-170) -/

/-- One entry of the `servers` array of the socket-config JSON. -/
structure ServerEntry where
  url : String
  secure : Bool
deriving DecidableEq, Repr

/-- The parsed socket-config document: an optional explicit `error` field
(`none` means the key is absent; `in conf` tests key presence) and an
optional `servers` array (`none` means the key is absent, so that
`conf["servers"]` raises KeyError, caught by both fallbacks). -/
structure SocketConf where
  error : Option String
  servers : Option (List ServerEntry)
deriving DecidableEq, Repr

/-- Endpoint selection (bot.py lines 152-168): an explicit error field
raises SocketConfigError; otherwise take the url of the first entry whose
secure flag is set; on KeyError or StopIteration fall back to the url of
the first entry of any kind; on KeyError or StopIteration again raise
SocketConfigError. -/
def selectServer (conf : SocketConf) : Except BotErr String :=
  match conf.error with
  | some e => .error (.socketConfigErr e)
  | none =>
    match conf.servers with
    | none => .error (.socketConfigErr "no servers in socket config")
    | some srvs =>
      match srvs.find? (fun srv => srv.secure) with
      | some srv => .ok srv.url
      | none =>
        match srvs with
        | [] => .error (.socketConfigErr "no servers in socket config")
        | srv :: _ => .ok srv.url

/-- `get_socket_config` result: the selected server url completed to the
socket endpoint with the template `%(domain)s/socket.io/` (bot.py
lines 20, 169-170). -/
def get_socket_config (conf : SocketConf) : Except BotErr String :=
  (selectServer conf).map (fun srv => srv ++ "/socket.io/")

/-! ## Event dispatcher (bot.py lines 263-292)

Handlers are identified by reference; we model a reference as a `Nat`
and a behaviour environment `env` giving each handler's return value as
a function of the event and payload.  The registry is the defaultdict
`self.handlers` viewed as a total map from event name to handler list
(the default being the empty list). -/

/-- The loop body of `trigger` (bot.py lines 286-292): invoke handlers
in order, stopping after the first whose return value is truthy; the
result is the ordered list of handlers actually invoked. -/
def runHandlers {D : Type} (env : Nat → String → D → Bool) (ev : String) (d : D) :
    List Nat → List Nat
  | [] => []
  | h :: t => h :: (if env h ev d then [] else runHandlers env ev d t)

/-- `trigger(event, data)` (bot.py lines 283-292): the loop never writes
the registry (the defaultdict may materialise an empty entry, which the
total-map view makes invisible), so the registry is returned unchanged
together with the invocation log. -/
def trigger {D : Type} (env : Nat → String → D → Bool)
    (reg : String → List Nat) (ev : String) (d : D) :
    (String → List Nat) × List Nat :=
  (reg, runHandlers env ev d (reg ev))

/-- Appending one handler as `on` does: skipped when an equal reference
is already in the list (bot.py lines 266-270). -/
def addHandler (l : List Nat) (h : Nat) : List Nat :=
  if h ∈ l then l else l ++ [h]

/-- `on(event, *handlers)` (bot.py lines 263-271): fold the handlers into
the event's list, left to right, each skipped when already present. -/
def onEvent (reg : String → List Nat) (ev : String) (hs : List Nat) :
    String → List Nat :=
  fun e => if e = ev then hs.foldl addHandler (reg ev) else reg e

/-- The registry of a fresh dispatcher with no registration. -/
def emptyReg : String → List Nat := fun _ => []

/-! ## chat_message (bot.py lines 294-317) -/

/-- The slice of bot/channel state that `chat_message` consults before
emitting: whether `channel.check_permission("chat", user)` passes
(the channel is an external collaborator; a failed check raises), and
the local user's muted and smuted flags. -/
structure ChatCtx where
  chatAllowed : Bool
  muted : Bool
  smuted : Bool
deriving DecidableEq, Repr

/-- An outbound `socket.emit` call as `chat_message` issues it: the
event name, the message and the optional private recipient. -/
structure EmitCall where
  event : String
  msg : String
  recipient : Option String
deriving DecidableEq, Repr

/-- `chat_message(msg, to, meta)` up to the outbound emit (bot.py lines
294-312): the permission check runs first; with `to` given the payload
is a private message; otherwise a muted or shadow-muted local user
raises ChannelPermissionError before any network operation; otherwise
the payload is a broadcast `chatMsg`.  A returned `.ok` value is the
emit call issued on the transport. -/
def chat_message (ctx : ChatCtx) (msg : String) (toUser : Option String) :
    Except BotErr EmitCall :=
  if ctx.chatAllowed = false then .error (.channelPermissionErr "chat")
  else
    match toUser with
    | some t => .ok ⟨"pm", msg, some t⟩
    | none =>
      if ctx.muted || ctx.smuted then .error (.channelPermissionErr "muted")
      else .ok ⟨"chatMsg", msg, none⟩

/-! ## The noflood handler (bot.py lines 77-78) -/

/-- The attribute names of a `Bot` object: the class attributes
(bot.py lines 17-23) and the instance attributes assigned in
`__init__` (bot.py lines 32-43).  Attribute lookup on `self` resolves
against these; looking up any other name raises AttributeError. -/
def botAttrs : List String :=
  ["logger", "SOCKET_CONFIG_URL", "SOCKET_IO_URL", "GUEST_LOGIN_LIMIT", "MUTED",
   "get", "socket_io", "response_timeout", "restart_on_error", "domain",
   "channel", "user", "user_count", "loop", "server", "socket", "handlers"]

/-- `_on_noflood(self, _, data)` executes `self.loger.error(...)`: it
first resolves the attribute `loger` on the bot, raising AttributeError
when no such attribute exists, and only then would log and return. -/
def onNoflood (attrs : List String) (_data : String) : Except BotErr Unit :=
  if "loger" ∈ attrs then .ok () else .error (.attributeErr "loger")

/-! ## disconnect (bot.py lines 172-184) -/

/-- The connection slice of the bot state: the transport handle
`self.socket` (an abstract session id, present only while connected) and the
local user's rank. -/
structure ConnState where
  socket : Option Nat
  rank : Int
deriving DecidableEq, Repr

/-- `disconnect()` (bot.py lines 172-184): a no-op when the handle is
already None; otherwise `socket.close()` runs (its outcome `closeRes`
is the external transport's), and the `finally` clause clears the
handle and resets the rank to -1 on both outcomes; a close error is
logged and re-raised, returned here as the second component. -/
def disconnect (closeRes : Except String Unit) (b : ConnState) :
    ConnState × Option String :=
  match b.socket with
  | none => (b, none)
  | some _ =>
    match closeRes with
    | .ok _ => ({ b with socket := none, rank := -1 }, none)
    | .error e => ({ b with socket := none, rank := -1 }, some e)

/-! ## setUserMeta (bot.py lines 108-109, user.py lines 87-95) -/

/-- Modelled from the spec: `Channel.update_user` lives in the channel
container, which is not under src/; per the spec it applies the meta
update to the named user, and `User.__eq__` (user.py lines 44-49)
compares users by name, so the named user is the one whose name equals
the payload's name.  The update applied is `User.update` with only the
meta argument, exactly what `_on_setUserMeta` passes. -/
def metaUpdateNamed (uncloak : String → String) (name : String) (m : MetaData)
    (u : User) : User :=
  if u.name = name then User.update uncloak u none none none (some m) else u

/-- `_on_setUserMeta` (bot.py lines 108-109) over the channel's user
list: `channel.update_user(data["name"], meta=data["meta"])`. -/
def setUserMeta (uncloak : String → String) (users : List User)
    (name : String) (m : MetaData) : List User :=
  users.map (metaUpdateNamed uncloak name m)

/-! ## The authenticate loop (bot.py lines 214-238) driven by a finite
trace of acknowledgements. -/

/-- Outcome of the authenticate loop on a finite trace of
acknowledgements, recording the sleeps performed in order: the loop
either breaks on success, raises LoginError, or is still awaiting the
next acknowledgement when the trace ends. -/
inductive LoginOutcome where
  | authenticated (sleeps : List Nat)
  | failed (sleeps : List Nat) (err : String)
  | awaiting (sleeps : List Nat)
deriving DecidableEq, Repr

/-- The `while True` authenticate loop, consuming one acknowledgement per
iteration through `loginStep`. -/
def loginAuth (sleeps : List Nat) : List LoginAck → LoginOutcome
  | [] => .awaiting sleeps.reverse
  | r :: rs =>
    match loginStep r with
    | .done => .authenticated sleeps.reverse
    | .sleepRetry d => loginAuth (d :: sleeps) rs
    | .fail e => .failed sleeps.reverse e

/-! # Helper lemmas -/

theorem runHandlers_of_all_false {D : Type} (env : Nat → String → D → Bool)
    (ev : String) (d : D) (l : List Nat) (h : ∀ x ∈ l, env x ev d = false) :
    runHandlers env ev d l = l := by
  induction l with
  | nil => rfl
  | cons a t ih =>
    have ha : env a ev d = false := h a (List.mem_cons_self a t)
    simp only [runHandlers, ha, Bool.false_eq_true, if_false]
    rw [ih (fun x hx => h x (List.mem_cons_of_mem a hx))]

theorem runHandlers_stop {D : Type} (env : Nat → String → D → Bool)
    (ev : String) (d : D) (pre : List Nat) (h : Nat) (post : List Nat)
    (hpre : ∀ x ∈ pre, env x ev d = false) (hh : env h ev d = true) :
    runHandlers env ev d (pre ++ h :: post) = pre ++ [h] := by
  induction pre with
  | nil => simp [runHandlers, hh]
  | cons a t ih =>
    have ha : env a ev d = false := hpre a (List.mem_cons_self a t)
    simp only [List.cons_append, runHandlers, ha, Bool.false_eq_true, if_false,
      List.append_eq]
    rw [ih (fun x hx => hpre x (List.mem_cons_of_mem a hx))]

theorem find?_secure_split (pre : List ServerEntry) (srv : ServerEntry)
    (post : List ServerEntry) (hpre : ∀ x ∈ pre, x.secure = false)
    (hsrv : srv.secure = true) :
    List.find? (fun s => s.secure) (pre ++ srv :: post) = some srv := by
  induction pre with
  | nil => simp [List.find?_cons, hsrv]
  | cons a t ih =>
    have ha : a.secure = false := hpre a (List.mem_cons_self a t)
    simp only [List.cons_append, List.find?_cons, ha]
    exact ih (fun x hx => hpre x (List.mem_cons_of_mem a hx))

theorem addHandler_mem_self (l : List Nat) (h : Nat) : h ∈ addHandler l h := by
  unfold addHandler
  by_cases hm : h ∈ l
  · simp [hm]
  · simp [hm]

theorem addHandler_of_mem (l : List Nat) (h : Nat) (hm : h ∈ l) :
    addHandler l h = l := by
  simp [addHandler, hm]

theorem addHandler_of_not_mem (l : List Nat) (h : Nat) (hm : h ∉ l) :
    addHandler l h = l ++ [h] := by
  simp [addHandler, hm]

/-! # Claim theorems -/

/-- C1: During login, an authenticate failure acknowledgement whose error
string matches the guest-login-throttle pattern makes the sequencer
sleep max(N, 1) seconds and retry the loop without raising; in
particular "guest logins are limited to 1 per 30 seconds." produces a
30-second sleep then a retry (reaching success on the next
acknowledgement); a non-matching error string (such as "guest logins
are limited to abc seconds.") raises LoginError immediately, with no
sleep and no retry. -/
theorem login_guest_throttle :
    (∀ (res : LoginAck) (err : String) (g : List Char) (n : Nat),
      res.success.getD false = false →
      res.error.getD "<no error message>" = err →
      guestLoginLimit err = some g → pyInt g = some n →
      loginStep res = .sleepRetry (max n 1)) ∧
    (∀ (res : LoginAck) (err : String),
      res.success.getD false = false →
      res.error.getD "<no error message>" = err →
      guestLoginLimit err = none →
      loginStep res = .fail err) ∧
    (∀ (sleeps : List Nat) (r : LoginAck) (rs : List LoginAck) (d : Nat),
      loginStep r = .sleepRetry d →
      loginAuth sleeps (r :: rs) = loginAuth (d :: sleeps) rs) ∧
    (∀ (sleeps : List Nat) (r : LoginAck) (rs : List LoginAck) (e : String),
      loginStep r = .fail e →
      loginAuth sleeps (r :: rs) = .failed sleeps.reverse e) ∧
    loginAuth []
      [⟨some false, some "guest logins are limited to 1 per 30 seconds."⟩,
       ⟨some true, none⟩] = .authenticated [30] ∧
    loginAuth []
      [⟨some false, some "guest logins are limited to abc seconds."⟩,
       ⟨some true, none⟩]
      = .failed [] "guest logins are limited to abc seconds." := by
  refine ⟨?_, ?_, ?_, ?_, by decide, by decide⟩
  · intro res err g n hs he hg hp
    subst he
    simp [loginStep, hs, hg, hp]
  · intro res err hs he hg
    subst he
    simp [loginStep, hs, hg]
  · intro sleeps r rs d hr
    simp [loginAuth, hr]
  · intro sleeps r rs e hr
    simp [loginAuth, hr]

/-- Witness for C1 at the two concrete throttle messages. -/
theorem login_guest_throttle_witness :
    loginStep ⟨some false, some "guest logins are limited to 1 per 30 seconds."⟩
      = .sleepRetry (max 30 1) ∧
    loginStep ⟨some false, some "guest logins are limited to abc seconds."⟩
      = .fail "guest logins are limited to abc seconds." :=
  ⟨login_guest_throttle.1
      ⟨some false, some "guest logins are limited to 1 per 30 seconds."⟩
      "guest logins are limited to 1 per 30 seconds." ['3', '0'] 30
      rfl rfl (by decide) (by decide),
   login_guest_throttle.2.1
      ⟨some false, some "guest logins are limited to abc seconds."⟩
      "guest logins are limited to abc seconds." rfl rfl (by decide)⟩

/-- C2: Endpoint selection on a parsed socket-config document: an explicit
error field raises ConfigError; otherwise the url of the first entry
flagged secure is selected; with no secure entry the url of the first
entry of any kind; with an empty or absent server list ConfigError is
raised.  Includes the concrete secure-preference instances. -/
theorem socket_config_selection :
    (∀ (conf : SocketConf) (e : String), conf.error = some e →
      selectServer conf = .error (.socketConfigErr e)) ∧
    (∀ (conf : SocketConf) (pre : List ServerEntry) (srv : ServerEntry)
      (post : List ServerEntry),
      conf.error = none → conf.servers = some (pre ++ srv :: post) →
      (∀ x ∈ pre, x.secure = false) → srv.secure = true →
      selectServer conf = .ok srv.url) ∧
    (∀ (conf : SocketConf) (srv : ServerEntry) (rest : List ServerEntry),
      conf.error = none → conf.servers = some (srv :: rest) →
      (∀ x ∈ srv :: rest, x.secure = false) →
      selectServer conf = .ok srv.url) ∧
    (∀ conf : SocketConf, conf.error = none →
      (conf.servers = none ∨ conf.servers = some []) →
      selectServer conf = .error (.socketConfigErr "no servers in socket config")) ∧
    selectServer ⟨none, some [⟨"A", false⟩, ⟨"B", true⟩]⟩ = .ok "B" ∧
    selectServer ⟨none, some [⟨"A", false⟩]⟩ = .ok "A" ∧
    selectServer ⟨none, some []⟩
      = .error (.socketConfigErr "no servers in socket config") ∧
    selectServer ⟨none, none⟩
      = .error (.socketConfigErr "no servers in socket config") := by
  refine ⟨?_, ?_, ?_, ?_, rfl, rfl, rfl, rfl⟩
  · intro conf e he
    obtain ⟨er, sv⟩ := conf
    simp only at he
    subst he
    rfl
  · intro conf pre srv post he hs hpre hsrv
    obtain ⟨er, sv⟩ := conf
    simp only at he hs
    subst he
    subst hs
    simp [selectServer, find?_secure_split pre srv post hpre hsrv]
  · intro conf srv rest he hs hall
    obtain ⟨er, sv⟩ := conf
    simp only at he hs
    subst he
    subst hs
    have hnone : List.find? (fun s => s.secure) (srv :: rest) = none := by
      rw [List.find?_eq_none]
      intro x hx
      simp [hall x hx]
    simp [selectServer, hnone]
  · intro conf he hs
    obtain ⟨er, sv⟩ := conf
    simp only at he
    subst he
    rcases hs with h | h <;> (simp only at h; subst h; rfl)

/-- Witness for C2 on a concrete document with one insecure entry before
the secure one. -/
theorem socket_config_selection_witness :
    selectServer ⟨none, some [⟨"A", false⟩, ⟨"B", true⟩]⟩ = .ok "B" :=
  socket_config_selection.2.1 ⟨none, some [⟨"A", false⟩, ⟨"B", true⟩]⟩
    [⟨"A", false⟩] ⟨"B", true⟩ [] rfl rfl (by decide) rfl

/-- C3: `trigger` invokes the registered handlers in registration order
with (event, data); a truthy handler return stops the later handlers
while every earlier handler ran in order, the registry is left
unchanged, and an event with no registered handlers is a no-op. -/
theorem trigger_dispatch :
    (∀ (D : Type) (env : Nat → String → D → Bool)
      (reg : String → List Nat) (ev : String) (d : D),
      reg ev = [] → trigger env reg ev d = (reg, [])) ∧
    (∀ (D : Type) (env : Nat → String → D → Bool)
      (reg : String → List Nat) (ev : String) (d : D)
      (pre : List Nat) (h : Nat) (post : List Nat),
      reg ev = pre ++ h :: post →
      (∀ x ∈ pre, env x ev d = false) → env h ev d = true →
      (trigger env reg ev d).2 = pre ++ [h]) ∧
    (∀ (D : Type) (env : Nat → String → D → Bool)
      (reg : String → List Nat) (ev : String) (d : D),
      (∀ x ∈ reg ev, env x ev d = false) →
      (trigger env reg ev d).2 = reg ev) ∧
    (∀ (D : Type) (env : Nat → String → D → Bool)
      (reg : String → List Nat) (ev : String) (d : D),
      (trigger env reg ev d).1 = reg) := by
  refine ⟨?_, ?_, ?_, ?_⟩
  · intro D env reg ev d hempty
    simp [trigger, hempty, runHandlers]
  · intro D env reg ev d pre h post hsplit hpre hh
    simp only [trigger]
    rw [hsplit]
    exact runHandlers_stop env ev d pre h post hpre hh
  · intro D env reg ev d hall
    exact runHandlers_of_all_false env ev d (reg ev) hall
  · intro D env reg ev d
    rfl

/-- Witness for C3: three handlers of which the second returns a truthy
value; exactly the first two run, in order. -/
theorem trigger_dispatch_witness :
    (trigger (fun h _ _ => decide (h = 2)) (fun _ => [1, 2, 3]) "chatMsg"
      (0 : Nat)).2 = [1] ++ [2] :=
  trigger_dispatch.2.1 Nat (fun h _ _ => decide (h = 2)) (fun _ => [1, 2, 3])
    "chatMsg" 0 [1] 2 [3] rfl (by decide) (by decide)

/-- C4: `on` is idempotent: registering a handler already present for the
event leaves the registry unchanged; registering the same handler twice
yields exactly one entry and exactly one invocation of it per trigger
of that event. -/
theorem handler_dedupe :
    (∀ (reg : String → List Nat) (ev : String) (h : Nat) (e : String),
      h ∈ reg ev → onEvent reg ev [h] e = reg e) ∧
    (∀ (reg : String → List Nat) (ev : String) (h : Nat) (e : String),
      onEvent (onEvent reg ev [h]) ev [h] e = onEvent reg ev [h] e) ∧
    (∀ (reg : String → List Nat) (ev : String) (h : Nat),
      h ∉ reg ev → onEvent reg ev [h] ev = reg ev ++ [h]) ∧
    (∀ (reg : String → List Nat) (ev : String) (h : Nat),
      h ∉ reg ev → ((onEvent (onEvent reg ev [h]) ev [h]) ev).count h = 1) ∧
    (∀ (D : Type) (env : Nat → String → D → Bool) (d : D) (ev : String) (h : Nat),
      ((trigger env (onEvent (onEvent emptyReg ev [h]) ev [h]) ev d).2).count h
        = 1) := by
  have hone : ∀ (reg : String → List Nat) (ev : String) (h : Nat),
      onEvent reg ev [h] ev = addHandler (reg ev) h := by
    intro reg ev h
    simp [onEvent]
  have htwice : ∀ (reg : String → List Nat) (ev : String) (h : Nat) (e : String),
      onEvent (onEvent reg ev [h]) ev [h] e = onEvent reg ev [h] e := by
    intro reg ev h e
    by_cases he : e = ev
    · subst he
      rw [hone, hone]
      exact addHandler_of_mem _ h (addHandler_mem_self (reg e) h)
    · simp [onEvent, he]
  refine ⟨?_, htwice, ?_, ?_, ?_⟩
  · intro reg ev h e hm
    by_cases he : e = ev
    · subst he
      rw [hone]
      exact addHandler_of_mem _ h hm
    · simp [onEvent, he]
  · intro reg ev h hm
    rw [hone]
    exact addHandler_of_not_mem _ h hm
  · intro reg ev h hm
    rw [htwice, hone, addHandler_of_not_mem _ h hm]
    have hz : (reg ev).count h = 0 := List.count_eq_zero.mpr hm
    simp [List.count_append, hz]
  · intro D env d ev h
    have hreg : (onEvent (onEvent emptyReg ev [h]) ev [h]) ev = [h] := by
      rw [htwice, hone]
      simp [emptyReg, addHandler]
    simp only [trigger, hreg]
    cases henv : env h ev d <;> simp [runHandlers, henv]

/-- Witness for C4: registering handler 5 for an event where it is already
registered leaves the list unchanged. -/
theorem handler_dedupe_witness :
    onEvent (fun _ => [5]) "chatMsg" [5] "chatMsg" = [5] :=
  handler_dedupe.1 (fun _ => [5]) "chatMsg" 5 "chatMsg" (by decide)

/-- C5 counterexample: with the chat permission granted and the local user
muted, a chat_message call with a private recipient does issue an
outbound emit (a `pm` payload) and does not fail with PermissionError,
refuting "a call to chat_message never issues an outbound emit call"
as stated over every call. -/
theorem chat_message_muted_pm_emits :
    chat_message ⟨true, true, false⟩ "hi" (some "alice")
      = .ok ⟨"pm", "hi", some "alice"⟩ ∧
    ∀ e : BotErr, chat_message ⟨true, true, false⟩ "hi" (some "alice")
      ≠ .error e := by
  refine ⟨rfl, ?_⟩
  intro e h
  simp [chat_message] at h

/-- C5 (amended): with the chat permission granted and no private
recipient, a muted or shadow-muted local user makes chat_message fail
fast with PermissionError("muted") before any outbound emit. -/
theorem chat_message_muted_no_emit :
    ∀ (ctx : ChatCtx) (msg : String), ctx.chatAllowed = true →
      (ctx.muted = true ∨ ctx.smuted = true) →
      chat_message ctx msg none = .error (.channelPermissionErr "muted") := by
  intro ctx msg hperm hmute
  obtain ⟨ca, mu, sm⟩ := ctx
  simp only at hperm
  subst hperm
  rcases hmute with h | h <;> (simp only at h; subst h; simp [chat_message])

/-- Witness for the amended C5 on a concrete muted context. -/
theorem chat_message_muted_no_emit_witness :
    chat_message ⟨true, true, false⟩ "hi" none
      = .error (.channelPermissionErr "muted") :=
  chat_message_muted_no_emit ⟨true, true, false⟩ "hi" rfl (Or.inl rfl)

/-- C6: triggering the noflood handler resolves the attribute `loger` on
the bot, which no Bot attribute provides (the logger is spelled
`logger`), so the handler raises AttributeError instead of logging and
returning normally: the code contradicts the claim. -/
theorem noflood_handler_attribute_error :
    onNoflood botAttrs "spam" = .error (.attributeErr "loger") ∧
    "logger" ∈ botAttrs ∧ "loger" ∉ botAttrs := by
  refine ⟨rfl, by decide, by decide⟩

/-- C7: on a connected bot, disconnect always clears the transport handle
and resets the rank to the -1 sentinel, also when the transport close
reports an error, in which case that error is re-raised after the
cleanup. -/
theorem disconnect_always_cleans :
    ∀ (b : ConnState) (closeRes : Except String Unit), b.socket.isSome →
      (disconnect closeRes b).1.socket = none ∧
      (disconnect closeRes b).1.rank = -1 ∧
      (∀ e : String, closeRes = .error e → (disconnect closeRes b).2 = some e) := by
  intro b closeRes hsome
  obtain ⟨s, r⟩ := b
  cases s with
  | none => simp at hsome
  | some sess =>
    cases closeRes with
    | ok u => exact ⟨rfl, rfl, fun e he => by cases he⟩
    | error e0 => exact ⟨rfl, rfl, fun e he => by cases he; rfl⟩

/-- Witness for C7: a connected bot whose transport close errors still
ends with a cleared handle, rank -1, and the error re-raised. -/
theorem disconnect_always_cleans_witness :
    (disconnect (.error "boom") ⟨some 7, 3⟩).1.socket = none ∧
    (disconnect (.error "boom") ⟨some 7, 3⟩).1.rank = -1 ∧
    (∀ e : String, (Except.error "boom" : Except String Unit) = .error e →
      (disconnect (.error "boom") ⟨some 7, 3⟩).2 = some e) :=
  disconnect_always_cleans ⟨some 7, 3⟩ (.error "boom") rfl

/-- C8: disconnect is idempotent: on an already-disconnected bot it is a
no-op that never raises and changes no state; and when the transport
close succeeds, two disconnects in sequence never raise and leave the
handle unset after both calls. -/
theorem disconnect_idempotent :
    ∀ b : ConnState,
      (∀ closeRes : Except String Unit,
        b.socket = none → disconnect closeRes b = (b, none)) ∧
      (disconnect (Except.ok ()) b).2 = none ∧
      (disconnect (Except.ok ()) b).1.socket = none ∧
      (disconnect (Except.ok ()) (disconnect (Except.ok ()) b).1).2 = none ∧
      (disconnect (Except.ok ()) (disconnect (Except.ok ()) b).1).1.socket
        = none := by
  intro b
  obtain ⟨s, r⟩ := b
  refine ⟨?_, ?_⟩
  · intro closeRes hnone
    simp only at hnone
    subst hnone
    rfl
  · cases s with
    | none => exact ⟨rfl, rfl, rfl, rfl⟩
    | some sess => exact ⟨rfl, rfl, rfl, rfl⟩

/-- Witness for C8 on an already-disconnected bot. -/
theorem disconnect_idempotent_witness :
    disconnect (.error "boom") ⟨none, 4⟩ = (⟨none, 4⟩, none) :=
  (disconnect_idempotent ⟨none, 4⟩).1 (.error "boom") rfl

/-- C9 counterexample: a user whose muted flag is set, receiving a
setUserMeta payload that mentions only afk, comes out with muted reset
to False: fields absent from the payload are not left unchanged, so the
handler does not merge. -/
theorem setUserMeta_not_merge :
    (setUserMeta (fun s => s)
        [⟨"bob", none, 3, "", "", false, true, false, none, none, []⟩]
        "bob" ⟨some true, none, none, none, none⟩).map User.muted
      = [false] ∧
    (⟨"bob", none, 3, "", "", false, true, false, none, none, []⟩ : User).muted
      = true := by
  exact ⟨rfl, rfl⟩

/-- C9 (amended): handling setUserMeta rewrites the named user's meta
wholesale from the payload, substituting the defaults (afk False, muted
False, smuted False, ip None, aliases empty) for fields absent from the
payload; the named user's non-meta fields (name, password, rank, image,
text) and every other user are unchanged, and the derived uncloaked ip
follows the assigned ip. -/
theorem setUserMeta_overwrite :
    ∀ (uncloak : String → String) (name : String) (m : MetaData)
      (pre : List User) (u : User) (post : List User),
      setUserMeta uncloak (pre ++ u :: post) name m
        = setUserMeta uncloak pre name m
          ++ metaUpdateNamed uncloak name m u :: setUserMeta uncloak post name m ∧
      (u.name ≠ name → metaUpdateNamed uncloak name m u = u) ∧
      (u.name = name →
        (metaUpdateNamed uncloak name m u).afk = m.afk.getD false ∧
        (metaUpdateNamed uncloak name m u).muted = m.muted.getD false ∧
        (metaUpdateNamed uncloak name m u).smuted = m.smuted.getD false ∧
        (metaUpdateNamed uncloak name m u).aliases = m.aliases.getD [] ∧
        (metaUpdateNamed uncloak name m u).rawIp = m.ip ∧
        (metaUpdateNamed uncloak name m u).uncloaked_ip = m.ip.map uncloak ∧
        (metaUpdateNamed uncloak name m u).name = u.name ∧
        (metaUpdateNamed uncloak name m u).password = u.password ∧
        (metaUpdateNamed uncloak name m u).rank = u.rank ∧
        (metaUpdateNamed uncloak name m u).image = u.image ∧
        (metaUpdateNamed uncloak name m u).text = u.text) := by
  intro uncloak name m pre u post
  refine ⟨by simp [setUserMeta], ?_, ?_⟩
  · intro hne
    simp [metaUpdateNamed, hne]
  · intro heq
    simp only [metaUpdateNamed, heq, if_true, User.update, User.setMeta,
      User.setIp, Option.getD_some]
    cases m.ip <;>
      simp [User.update, User.setMeta, User.setIp]

/-- Witness for the amended C9: a user not carrying the payload's name is
untouched. -/
theorem setUserMeta_overwrite_witness :
    metaUpdateNamed (fun s => s) "alice" ⟨some true, none, none, none, none⟩
      ⟨"bob", none, 3, "", "", false, true, false, none, none, []⟩
      = ⟨"bob", none, 3, "", "", false, true, false, none, none, []⟩ :=
  (setUserMeta_overwrite (fun s => s) "alice" ⟨some true, none, none, none, none⟩
    [] ⟨"bob", none, 3, "", "", false, true, false, none, none, []⟩ []).2.1
    (by decide)

/-- C10: after construction and after every ip assignment, meta
assignment, or update call, the derived uncloaked ip is None iff the
raw ip is None, and a non-None raw ip makes it the image of the pure
external uncloaking function. -/
theorem user_ip_coherence :
    ∀ uncloak : String → String,
      (∀ (u : User), User.ipCoherent uncloak u →
        ((u.uncloaked_ip = none ↔ u.rawIp = none) ∧
          ∀ s : String, u.rawIp = some s → u.uncloaked_ip = some (uncloak s))) ∧
      (∀ (name : String) (pw : Option String) (rank : Int)
        (profile : Option ProfileData) (meta : Option MetaData),
        User.ipCoherent uncloak (User.mk0 uncloak name pw rank profile meta)) ∧
      (∀ (u : User) (ip : Option String),
        User.ipCoherent uncloak (User.setIp uncloak u ip)) ∧
      (∀ (u : User) (m : Option MetaData),
        User.ipCoherent uncloak (User.setMeta uncloak u m)) ∧
      (∀ (u : User) (name : Option String) (rank : Option Int)
        (profile : Option ProfileData) (meta : Option MetaData),
        User.ipCoherent uncloak u →
        User.ipCoherent uncloak (User.update uncloak u name rank profile meta)) := by
  intro uncloak
  have hip : ∀ (u : User) (ip : Option String),
      User.ipCoherent uncloak (User.setIp uncloak u ip) := by
    intro u ip
    cases ip <;> simp [User.ipCoherent, User.setIp]
  have hmeta : ∀ (u : User) (m : Option MetaData),
      User.ipCoherent uncloak (User.setMeta uncloak u m) := by
    intro u m
    simp only [User.setMeta]
    exact hip _ _
  have hupd : ∀ (u : User) (name : Option String) (rank : Option Int)
      (profile : Option ProfileData) (meta : Option MetaData),
      User.ipCoherent uncloak u →
      User.ipCoherent uncloak (User.update uncloak u name rank profile meta) := by
    intro u name rank profile meta hu
    cases meta with
    | some m =>
      simp only [User.update]
      exact hmeta _ _
    | none =>
      simp only [User.update]
      cases name <;> cases rank <;> cases profile <;>
        simpa [User.ipCoherent, User.setProfile] using hu
  refine ⟨?_, ?_, hip, hmeta, hupd⟩
  · intro u hu
    rw [User.ipCoherent] at hu
    constructor
    · rw [hu]
      cases h : u.rawIp <;> simp
    · intro s hs
      rw [hu, hs]
      rfl
  · intro name pw rank profile meta
    exact hupd _ none none profile meta (by simp [User.ipCoherent])

/-- Witness for C10: the coherence invariant evaluated on a freshly built
user carrying an ip in its meta payload, with the identity uncloaking
function. -/
theorem user_ip_coherence_witness :
    (User.mk0 (fun s => s) "bob" none 0 none
        (some ⟨none, none, none, some "1.2.3.4", none⟩)).uncloaked_ip = none ↔
    (User.mk0 (fun s => s) "bob" none 0 none
        (some ⟨none, none, none, some "1.2.3.4", none⟩)).rawIp = none :=
  ((user_ip_coherence (fun s => s)).1 _
    ((user_ip_coherence (fun s => s)).2.1 "bob" none 0 none
      (some ⟨none, none, none, some "1.2.3.4", none⟩))).1
